import Mathlib

/-!
Shallow embedding of the VMware Aria Operations Prometheus exporter
(`vmware_aria_exporter.py` and `vmware_aria_exporter_advanced.py`).

Python dictionaries are modelled as association lists (insertion-ordered,
unique keys in practice; where a proof needs key uniqueness it carries an
explicit `Nodup` hypothesis, which Python's `dict` guarantees).  Optional
JSON fields accessed through `dict.get(k, default)` are modelled as
`Option` fields read through `Option.getD`.  External I/O (HTTP calls,
the regex engine) is modelled by passing the observed outcome in as data.
-/

namespace AriaExporter

/-- First-match lookup in an association list (Python `d[k]` / `d.get(k)`). -/
def alookup {κ β : Type} [DecidableEq κ] : List (κ × β) → κ → Option β
  | [], _ => none
  | (k', v) :: rest, k => if k' = k then some v else alookup rest k

/-- Assignment `d[k] = v` on a Python dict: replace the existing entry in
place, or append a fresh one at the end (insertion order preserved). -/
def aset {κ β : Type} [DecidableEq κ] : List (κ × β) → κ → β → List (κ × β)
  | [], k, v => [(k, v)]
  | (k', v') :: rest, k, v =>
      if k' = k then (k, v) :: rest else (k', v') :: aset rest k v

theorem alookup_aset_self {κ β : Type} [DecidableEq κ]
    (l : List (κ × β)) (k : κ) (v : β) : alookup (aset l k v) k = some v := by
  induction l with
  | nil => simp [aset, alookup]
  | cons hd tl ih =>
      obtain ⟨k', v'⟩ := hd
      by_cases h : k' = k
      · simp [aset, h, alookup]
      · simp [aset, h, alookup, ih]

theorem alookup_aset_ne {κ β : Type} [DecidableEq κ]
    (l : List (κ × β)) (k k₀ : κ) (v : β) (hne : k ≠ k₀) :
    alookup (aset l k v) k₀ = alookup l k₀ := by
  induction l with
  | nil => simp [aset, alookup, hne]
  | cons hd tl ih =>
      obtain ⟨k', v'⟩ := hd
      by_cases h : k' = k
      · subst h
        simp [aset, alookup, hne]
      · simp [aset, h, alookup, ih]

theorem alookup_eq_none_iff {κ β : Type} [DecidableEq κ]
    (l : List (κ × β)) (k : κ) :
    alookup l k = none ↔ k ∉ l.map Prod.fst := by
  induction l with
  | nil => simp [alookup]
  | cons hd tl ih =>
      obtain ⟨k', v'⟩ := hd
      by_cases h : k' = k
      · simp [alookup, h]
      · simp [alookup, h, ih, Ne.symm h]

theorem aset_map_fst_of_mem {κ β : Type} [DecidableEq κ]
    (l : List (κ × β)) (k : κ) (v : β) (h : k ∈ l.map Prod.fst) :
    (aset l k v).map Prod.fst = l.map Prod.fst := by
  induction l with
  | nil => simp at h
  | cons hd tl ih =>
      obtain ⟨k', v'⟩ := hd
      by_cases hk : k' = k
      · simp [aset, hk]
      · simp only [List.map_cons, List.mem_cons] at h
        rcases h with h | h
        · exact absurd h.symm hk
        · simp [aset, hk, ih h]

theorem aset_map_fst_of_not_mem {κ β : Type} [DecidableEq κ]
    (l : List (κ × β)) (k : κ) (v : β) (h : k ∉ l.map Prod.fst) :
    (aset l k v).map Prod.fst = l.map Prod.fst ++ [k] := by
  induction l with
  | nil => simp [aset]
  | cons hd tl ih =>
      obtain ⟨k', v'⟩ := hd
      simp only [List.map_cons, List.mem_cons] at h
      push_neg at h
      simp [aset, Ne.symm h.1, ih h.2]

/-! ## Configuration values (`load_config` / `deep_merge`) -/

/-- A YAML / JSON-like configuration value: scalars or a nested mapping
(the mapping is an insertion-ordered association list, as a Python dict). -/
inductive ConfigVal : Type
  | str (s : String)
  | nat (n : Nat)
  | bool (b : Bool)
  | arr (items : List ConfigVal)
  | dict (entries : List (String × ConfigVal))

/-- `deep_merge(base, update)` from the advanced exporter, acting on the
entry lists of two dicts: for each `(key, value)` of `update`, if the key
is present in `base` and both sides are dicts, merge recursively in place,
otherwise assign `base[key] = value`. -/
def deepMerge (base : List (String × ConfigVal)) :
    List (String × ConfigVal) → List (String × ConfigVal)
  | [] => base
  | (k, v) :: rest =>
      match alookup base k, v with
      | some (ConfigVal.dict b), ConfigVal.dict u =>
          deepMerge (aset base k (ConfigVal.dict (deepMerge b u))) rest
      | _, _ => deepMerge (aset base k v) rest

/-- The explicit overrides accepted by `main` / `load_config` (`kwargs`);
`none` models an argument the user did not pass (filtered out in `main`). -/
structure Kwargs where
  host : Option String := none
  username : Option String := none
  password : Option String := none
  verify_ssl : Option Bool := none
  port : Option Nat := none
  interval : Option Nat := none
  log_level : Option String := none
  deriving Repr

/-- The `vmware_aria` section of the `default_config` literal
(the explicit overrides are baked in as the defaults of each
`kwargs.get`). -/
def defaultAria (kw : Kwargs) : List (String × ConfigVal) :=
  [ ("host", ConfigVal.str (kw.host.getD "192.168.31.31")),
    ("username", ConfigVal.str (kw.username.getD "admin")),
    ("password", ConfigVal.str (kw.password.getD "")),
    ("verify_ssl", ConfigVal.bool (kw.verify_ssl.getD false)) ]

/-- The `exporter` section of the `default_config` literal. -/
def defaultExporter (kw : Kwargs) : List (String × ConfigVal) :=
  [ ("port", ConfigVal.nat (kw.port.getD 8000)),
    ("interval", ConfigVal.nat (kw.interval.getD 300)),
    ("log_level", ConfigVal.str (kw.log_level.getD "INFO")) ]

/-- The `metrics` section of the `default_config` literal. -/
def defaultMetrics : List (String × ConfigVal) :=
  [ ("detailed_resource_types", ConfigVal.arr
      [ ConfigVal.str "VirtualMachine",
        ConfigVal.str "HostSystem",
        ConfigVal.str "ClusterComputeResource" ]),
    ("max_stats_per_resource", ConfigVal.nat 10),
    ("stats_time_range_hours", ConfigVal.nat 1),
    ("timeouts", ConfigVal.dict
      [ ("resources", ConfigVal.nat 60),
        ("alerts", ConfigVal.nat 30),
        ("stats", ConfigVal.nat 45),
        ("supermetrics", ConfigVal.nat 30) ]) ]

/-- The `labels` section of the `default_config` literal. -/
def defaultLabels : List (String × ConfigVal) :=
  [ ("static", ConfigVal.dict []),
    ("resource_patterns", ConfigVal.dict []) ]

/-- The `default_config` literal built at the top of `load_config`
(note: the explicit overrides are baked into this structure as the
defaults of each `kwargs.get`, BEFORE the file merge). -/
def default_config (kw : Kwargs) : List (String × ConfigVal) :=
  [ ("vmware_aria", ConfigVal.dict (defaultAria kw)),
    ("exporter", ConfigVal.dict (defaultExporter kw)),
    ("metrics", ConfigVal.dict defaultMetrics),
    ("labels", ConfigVal.dict defaultLabels) ]

/-- `load_config`: start from `default_config` (which already absorbed the
explicit overrides) and, when a config file is present and parses, deep-merge
the file's mapping onto it.  `fileConfig = none` models "no file given /
file missing / file failed to parse" (all of which fall back to defaults). -/
def load_config (kw : Kwargs) (fileConfig : Option (List (String × ConfigVal))) :
    List (String × ConfigVal) :=
  match fileConfig with
  | some fc => deepMerge (default_config kw) fc
  | none => default_config kw

/-- The entry list of a dict-valued lookup result (`none` when the slot
is absent or not a dict). -/
def dictEntries : Option ConfigVal → Option (List (String × ConfigVal))
  | some (ConfigVal.dict es) => some es
  | _ => none

/-- The string of a string-valued lookup result. -/
def strVal : Option ConfigVal → Option String
  | some (ConfigVal.str s) => some s
  | _ => none

/-- The value `self.config[sec][field]` the constructor reads out of the
resolved configuration — e.g. `config['vmware_aria']['host']` or
`config['exporter']['port']`. -/
def resolvedField (sec field : String) (cfg : List (String × ConfigVal)) :
    Option ConfigVal :=
  (dictEntries (alookup cfg sec)).bind (fun es => alookup es field)

/-- The host value the constructor reads out of the resolved configuration
(`self.config['vmware_aria']['host']`). -/
def resolvedHost (cfg : List (String × ConfigVal)) : Option ConfigVal :=
  (dictEntries (alookup cfg "vmware_aria")).bind (fun aria => alookup aria "host")

/-- The resolved host as the string `self.host` ends up holding
(`none` when the config slot is absent or not a string). -/
def resolvedHostStr (cfg : List (String × ConfigVal)) : Option String :=
  strVal (resolvedHost cfg)

/-- Concrete inputs exercising the override/file precedence: the user
passes `--host cli-host` while the config file also supplies a host. -/
def C5kw : Kwargs := { host := some "cli-host" }

/-- The parsed config-file mapping for the precedence scenario. -/
def C5file : List (String × ConfigVal) :=
  [("vmware_aria", ConfigVal.dict [("host", ConfigVal.str "file-host")])]

/-! ## Prometheus metric state

Counters/histograms are modelled by their observation counts per label
tuple; `inc()` / one `observe()` is a pointwise `+ 1`. -/

/-- Bump a labelled counter at one label tuple. -/
def incAt {κ : Type} [DecidableEq κ] (f : κ → Nat) (k : κ) : κ → Nat :=
  Function.update f k (f k + 1)

/-- Python's `str.upper()` on the ASCII method names used here. -/
def pyUpper (s : String) : String := String.mk (s.data.map Char.toUpper)

/-- The instrumentation series of the advanced exporter that the claims
talk about: `vmware_aria_api_requests_total` (labels endpoint, method,
status_code), the observation count of
`vmware_aria_api_request_duration_seconds` (labels endpoint, method), and
`vmware_aria_collection_errors_total` (labels endpoint, error_type). -/
structure Metrics where
  apiRequestsTotal : String × String × Nat → Nat
  apiRequestDurationCount : String × String → Nat
  collectionErrorsTotal : String × String → Nat

def Metrics.zero : Metrics :=
  ⟨fun _ => 0, fun _ => 0, fun _ => 0⟩

/-- `self.collection_errors.labels(endpointLabel, errType).inc()`. -/
def Metrics.incErr (m : Metrics) (endpointLabel errType : String) : Metrics :=
  { m with collectionErrorsTotal := incAt m.collectionErrorsTotal (endpointLabel, errType) }

/-- `api_requests_total.labels(endpoint, method, status).inc()` together
with the one duration observation at `(endpoint, method)`. -/
def Metrics.recordApi (m : Metrics) (endpoint method : String) (status : Nat) : Metrics :=
  { m with
      apiRequestsTotal := incAt m.apiRequestsTotal (endpoint, method, status),
      apiRequestDurationCount := incAt m.apiRequestDurationCount (endpoint, method) }

/-- Observable outcome of one `session.get` / `session.post` call:
either the call raised (exception class name carried), or an HTTP
response arrived with a status code and a body; `body = none` models a
body on which `response.json()` raises. -/
inductive ReqOutcome (α : Type) : Type
  | exc (excName : String)
  | resp (status : Nat) (body : Option α)

/-- The error label computed in the `except` branch of `make_api_request`:
`endpoint.split('/')[2] if len(endpoint.split('/')) > 2 else 'unknown'`. -/
def endpointErrorLabel (endpoint : String) : String :=
  let parts := endpoint.splitOn "/"
  if parts.length > 2 then parts.getD 2 "unknown" else "unknown"

/-- `make_api_request` of the advanced exporter.  An unsupported method
raises `ValueError` inside the `try`, so it is caught like every other
failure.  The request-count/latency series are updated only once a
response object exists; `raise_for_status` raises `HTTPError` exactly for
status codes 400–599.  Every caught exception increments
`collection_errors_total` and the function returns `None`. -/
def make_api_request {α : Type} (endpoint method : String)
    (outcome : ReqOutcome α) (m : Metrics) : Option α × Metrics :=
  if pyUpper method ≠ "GET" ∧ pyUpper method ≠ "POST" then
    (none, m.incErr (endpointErrorLabel endpoint) "ValueError")
  else
    match outcome with
    | .exc name => (none, m.incErr (endpointErrorLabel endpoint) name)
    | .resp status body =>
        let m' := m.recordApi endpoint (pyUpper method) status
        if 400 ≤ status ∧ status < 600 then
          (none, m'.incErr (endpointErrorLabel endpoint) "HTTPError")
        else
          match body with
          | none => (none, m'.incErr (endpointErrorLabel endpoint) "JSONDecodeError")
          | some b => (some b, m')

/-! ## Paginated resource fetch (`get_resources`) -/

/-- The `pageInfo` envelope as read through `page_info.get(...)`. -/
structure PageInfoData where
  totalCount : Option Nat := none
  page : Option Nat := none
  pageSize : Option Nat := none

/-- One parsed `/api/resources` response body. -/
structure PageData (α : Type) where
  resourceList : Option (List α) := none
  pageInfo : Option PageInfoData := none

/-- The `while True` pagination loop of `get_resources`, with explicit
fuel (`none` = the fuel ran out, i.e. the loop would still be running).
`server` maps the requested page number to that call's outcome; `reqs` is
a ghost counter of page requests issued.  Faithful to the source: break
on a `None` reply; extend with `data.get('resourceList', [])`; read
`totalCount`/`page`/`pageSize` with defaults 0/0/1000; break when
`(current_page + 1) * page_size >= total_count`, else `page += 1`. -/
def getResourcesLoop {α : Type} (server : Nat → ReqOutcome (PageData α)) :
    Nat → Nat → Nat → List α → Metrics → Option (List α × Nat × Metrics)
  | 0, _, _, _, _ => none
  | fuel + 1, page, reqs, acc, m =>
      match make_api_request "/api/resources" "GET" (server page) m with
      | (none, m') => some (acc, reqs + 1, m')
      | (some data, m') =>
          let acc' := acc ++ data.resourceList.getD []
          let info := data.pageInfo.getD {}
          let total_count := info.totalCount.getD 0
          let current_page := info.page.getD 0
          let page_size := info.pageSize.getD 1000
          if total_count ≤ (current_page + 1) * page_size then
            some (acc', reqs + 1, m')
          else
            getResourcesLoop server fuel (page + 1) (reqs + 1) acc' m'

/-- `get_resources`: run the pagination loop from page 0 with an empty
accumulator. -/
def get_resources {α : Type} (server : Nat → ReqOutcome (PageData α))
    (fuel : Nat) (m : Metrics) : Option (List α × Nat × Metrics) :=
  getResourcesLoop server fuel 0 0 [] m

/-! ## Alerts and stats collectors -/

/-- An alert item as consumed by `update_metrics`. -/
structure Alert where
  alertLevel : Option String := none
  status : Option String := none

/-- Parsed `/api/alerts` body. -/
structure AlertsBody where
  alerts : Option (List Alert) := none

/-- `get_alerts` (advanced): one single-page request; on `None` the
accumulator stays `[]`, otherwise `data.get('alerts', [])`. -/
def get_alerts (outcome : ReqOutcome AlertsBody) (m : Metrics) :
    List Alert × Metrics :=
  match make_api_request "/api/alerts" "GET" outcome m with
  | (some data, m') => (data.alerts.getD [], m')
  | (none, m') => ([], m')

/-- A JSON scalar inside a stat sample's `data` array.  Numeric JSON
values are carried as rationals; only their identity matters here, never
their arithmetic. -/
inductive JVal : Type
  | num (q : Rat)
  | str (s : String)
  | null

/-- `statKey` of a stat sample. -/
structure StatKey where
  key : Option String := none
  unit : Option String := none

/-- One stat sample returned by the stats endpoint. -/
structure Stat where
  statKey : Option StatKey := none
  data : Option (List JVal) := none

/-- Parsed `/api/resources/{id}/stats` body. -/
structure StatsBody where
  values : Option (List Stat) := none

/-- `get_resource_stats` (advanced): one request for a resource id; on
`None` (or on any caught exception) it returns `[]`, otherwise
`data.get('values', [])`. -/
def get_resource_stats (resource_id : String)
    (outcome : ReqOutcome StatsBody) (m : Metrics) : List Stat × Metrics :=
  match make_api_request ("/api/resources/" ++ resource_id ++ "/stats") "GET" outcome m with
  | (some data, m') => (data.values.getD [], m')
  | (none, m') => ([], m')

/-! ## Authentication and startup -/

/-- Parsed token-acquisition response body. -/
structure AuthBody where
  token : Option String := none

/-- Python truthiness of `self.token` (`None` and `""` are falsy). -/
def pyTruthyStr : Option String → Bool
  | none => false
  | some s => s != ""

/-- `authenticate` of the advanced exporter: POST to the token endpoint;
request-count/latency series are recorded once a response exists;
`raise_for_status` raises for 400–599; a missing/empty `token` field
raises `Exception("No token received from authentication")`.  Every
failure increments `collection_errors_total` at endpoint label `auth` and
re-raises (modelled as `Except.error`); success returns the token. -/
def authenticate (outcome : ReqOutcome AuthBody) (m : Metrics) :
    Except String String × Metrics :=
  match outcome with
  | .exc name => (.error name, m.incErr "auth" name)
  | .resp status body =>
      let m' := m.recordApi "auth" "POST" status
      if 400 ≤ status ∧ status < 600 then
        (.error "HTTPError", m'.incErr "auth" "HTTPError")
      else
        match body with
        | none => (.error "JSONDecodeError", m'.incErr "auth" "JSONDecodeError")
        | some b =>
            if pyTruthyStr b.token then
              (.ok (b.token.getD ""), m')
            else
              (.error "No token received from authentication", m'.incErr "auth" "Exception")

/-- The token-acquisition outcomes on which the source's `authenticate`
raises: transport exception; HTTP 4xx/5xx (the statuses
`raise_for_status` raises for); a body `response.json()` cannot parse;
or a parsed body whose `token` field is missing or empty. -/
def authAcquisitionFails : ReqOutcome AuthBody → Prop
  | .exc _ => True
  | .resp s body =>
      (400 ≤ s ∧ s < 600) ∨ body = none ∨
        (∃ b, body = some b ∧ pyTruthyStr b.token = false)

/-- The tail of `__init__`: the constructor ends by calling
`authenticate()`, so an authentication exception propagates out of the
constructor. -/
def initExporter (outcome : ReqOutcome AuthBody) (m : Metrics) :
    Except String (String × Metrics) :=
  ((authenticate outcome m).1).map (fun tok => (tok, (authenticate outcome m).2))

/-- `main`: construct the exporter, then call `run`, whose first action is
`start_http_server`.  The `Bool` records whether the scrape listener was
started; a constructor exception propagates before `run` is entered. -/
def startup (outcome : ReqOutcome AuthBody) :
    Except String (String × Metrics × Bool) :=
  (initExporter outcome Metrics.zero).map (fun p => (p.1, p.2, true))

/-- Whether the scrape HTTP listener was ever started for a given
token-acquisition outcome. -/
def serverStarted (outcome : ReqOutcome AuthBody) : Bool :=
  match startup outcome with
  | .ok (_, _, started) => started
  | .error _ => false

/-! ## `update_metrics`: resources, counting, gauge updates -/

/-- `resourceKey` of a resource item, fields as optional as the JSON. -/
structure ResourceKey where
  name : Option String := none
  resourceKindKey : Option String := none
  adapterKindKey : Option String := none

/-- A resource item as consumed by `update_metrics`. -/
structure Resource where
  resourceKey : Option ResourceKey := none
  identifier : Option String := none

/-- `resource.get('resourceKey', {}).get('resourceKindKey', 'unknown')`. -/
def kindOf (r : Resource) : String :=
  (r.resourceKey.getD {}).resourceKindKey.getD "unknown"

/-- `resource.get('resourceKey', {}).get('adapterKindKey', 'unknown')`. -/
def adapterOf (r : Resource) : String :=
  (r.resourceKey.getD {}).adapterKindKey.getD "unknown"

/-- `resource.get('resourceKey', {}).get('name', 'unknown')`. -/
def resourceNameOf (r : Resource) : String :=
  (r.resourceKey.getD {}).name.getD "unknown"

/-- `alert.get('alertLevel', 'unknown')`. -/
def criticalityOf (a : Alert) : String := a.alertLevel.getD "unknown"

/-- `alert.get('status', 'unknown')`. -/
def alertStatusOf (a : Alert) : String := a.status.getD "unknown"

/-- `counts[key] = counts.get(key, 0) + 1` on the counting dict. -/
def bump (c : List ((String × String) × Nat)) (k : String × String) :
    List ((String × String) × Nat) :=
  aset c k ((alookup c k).getD 0 + 1)

/-- `resource_counts` built by the per-resource loop of `update_metrics`
(and `alert_counts` by the per-alert loop), as a dict keyed by a pair of
label values. -/
def buildCounts {α : Type} (key : α → String × String) (xs : List α) :
    List ((String × String) × Nat) :=
  xs.foldl (fun c x => bump c (key x)) []

/-- A gauge metric, by label tuple; `none` = series never set. -/
def GaugeState : Type := String × String → Option Nat

/-- `for key, count in counts.items(): gauge.labels(*key).set(count)` —
each `Gauge.set` is an assignment, not an addition. -/
def setAll (g : GaugeState) (counts : List ((String × String) × Nat)) : GaugeState :=
  counts.foldl (fun g kc => Function.update g kc.1 (some kc.2)) g

/-- Effect of one `update_metrics` cycle on the
`vmware_aria_resources_total` gauge. -/
def updateResourceCountGauge (g : GaugeState) (resources : List Resource) : GaugeState :=
  setAll g (buildCounts (fun r => (kindOf r, adapterOf r)) resources)

/-- Effect of one `update_metrics` cycle on the
`vmware_aria_alerts_total` gauge. -/
def updateAlertCountGauge (g : GaugeState) (alerts : List Alert) : GaugeState :=
  setAll g (buildCounts (fun a => (criticalityOf a, alertStatusOf a)) alerts)

/-! ## Stat reduction and the performance series -/

/-- One `performance_metric.labels(...).set(value)` call. -/
structure PerfSeries where
  resource_id : String
  resource_name : String
  resource_type : String
  metric_name : String
  unit : String
  extra : List (String × String)
  value : Rat

/-- The per-sample body of the stats loop in `update_metrics`:
`values = stat.get('data', [])`; `if values:` take `values[-1]`; and only
a numeric latest value produces one `performance_metric.set`. -/
def processStat (resourceId resourceName resourceKind : String)
    (extra : List (String × String)) (stat : Stat) : Option PerfSeries :=
  let stat_key := stat.statKey.getD {}
  let metric_name := stat_key.key.getD "unknown"
  let unit := stat_key.unit.getD ""
  match (stat.data.getD []).getLast? with
  | some (JVal.num q) =>
      some ⟨resourceId, resourceName, resourceKind, metric_name, unit, extra, q⟩
  | _ => none

/-- `for stat in stats[:max_stats]: ...` — the series produced for one
resource from its stat samples. -/
def processStats (resourceId resourceName resourceKind : String)
    (extra : List (String × String)) (maxStats : Nat) (stats : List Stat) :
    List PerfSeries :=
  (stats.take maxStats).filterMap (processStat resourceId resourceName resourceKind extra)

/-! ## Regex label extraction (`extract_labels_from_resource`) -/

/-- One iteration of the pattern loop in `extract_labels_from_resource`:
`try: m = re.search(pattern, resource_name); if m: labels[name] = m.group(1)`
with every exception swallowed per-pattern.  The regex engine is the
parameter `search pattern text`: `Except.error` when `re.search` raises,
`Except.ok none` on no match, `Except.ok (some groups)` on a match with
`groups` the texts of capture groups 1, 2, ….  `match.group(1)` on a
match without capture groups raises `IndexError`, also swallowed —
the `[]` case. -/
def extractStep (search : String → String → Except String (Option (List String)))
    (resource_name : String) (labels : List (String × String))
    (lp : String × String) : List (String × String) :=
  match search lp.2 resource_name with
  | .ok (some (g :: _)) => aset labels lp.1 g
  | _ => labels

/-- `extract_labels_from_resource`: apply every configured
`(label-name, pattern)` pair to the resource's display name. -/
def extract_labels (search : String → String → Except String (Option (List String)))
    (patterns : List (String × String)) (r : Resource) : List (String × String) :=
  patterns.foldl (extractStep search ((r.resourceKey.getD {}).name.getD "")) []

/-! ## Per-resource processing in `update_metrics` (advanced) -/

/-- The accumulating state of the resource loop of `update_metrics`:
the counting dict, the ids for which a stats fetch was issued (ghost
observation), and the performance series set so far. -/
structure CycleState where
  counts : List ((String × String) × Nat) := []
  fetches : List String := []
  perf : List PerfSeries := []

/-- One iteration of `for resource in resources:` in `update_metrics`
(advanced): always count under `(resource_kind, adapter_kind)`; for a
kind in the detailed-types list, fetch stats only when
`resource.get('identifier')` is truthy (`None` and `""` are falsy), then
set one series per reduced sample of the first `max_stats` samples.
`statsOf` stands for `get_resource_stats` and `search` for the regex
engine used by `extract_labels_from_resource`. -/
def processResource (detailedTypes : List String) (maxStats : Nat)
    (statsOf : String → List Stat)
    (search : String → String → Except String (Option (List String)))
    (patterns : List (String × String))
    (s : CycleState) (r : Resource) : CycleState :=
  let resource_kind := kindOf r
  let adapter_kind := adapterOf r
  let s := { s with counts := bump s.counts (resource_kind, adapter_kind) }
  if resource_kind ∈ detailedTypes then
    match r.identifier with
    | some rid =>
        if rid ≠ "" then
          let stats := statsOf rid
          let extra := extract_labels search patterns r
          let resource_name := resourceNameOf r
          { s with
              fetches := s.fetches ++ [rid],
              perf := s.perf ++ processStats rid resource_name resource_kind extra maxStats stats }
        else s
    | none => s
  else s

/-- The whole resource loop of `update_metrics` (advanced). -/
def processResources (detailedTypes : List String) (maxStats : Nat)
    (statsOf : String → List Stat)
    (search : String → String → Except String (Option (List String)))
    (patterns : List (String × String))
    (resources : List Resource) : CycleState :=
  resources.foldl (processResource detailedTypes maxStats statsOf search patterns) {}

/-- A concrete honest two-page upstream for exercising the pagination
loop: `totalCount = 3`, `pageSize = 2`, page `p` holding the single item
`p`. -/
def C1server : Nat → ReqOutcome (PageData Nat) :=
  fun p => ReqOutcome.resp 200 (some { resourceList := some [p], pageInfo := some { totalCount := some 3, page := some p, pageSize := some 2 } })

/-- A concrete upstream whose first two page requests succeed (and report
more pages to come) and whose third dies with a connection error. -/
def C3server : Nat → ReqOutcome (PageData Nat) :=
  fun p => if p < 2 then ReqOutcome.resp 200 (some { resourceList := some [p], pageInfo := some { totalCount := some 10, page := some p, pageSize := some 1 } }) else ReqOutcome.exc "ConnectionError"

/-! ## Lemmas about `deepMerge` -/

theorem deepMerge_cons (base : List (String × ConfigVal)) (k : String) (v : ConfigVal)
    (rest : List (String × ConfigVal)) :
    deepMerge base ((k, v) :: rest) =
      match alookup base k, v with
      | some (ConfigVal.dict b), ConfigVal.dict u =>
          deepMerge (aset base k (ConfigVal.dict (deepMerge b u))) rest
      | _, _ => deepMerge (aset base k v) rest := by
  rw [deepMerge.eq_def]

theorem deepMerge_nil (base : List (String × ConfigVal)) : deepMerge base [] = base := by
  rw [deepMerge.eq_def]

theorem dictEntries_dict (es : List (String × ConfigVal)) :
    dictEntries (some (ConfigVal.dict es)) = some es := rfl

theorem strVal_str (s : String) : strVal (some (ConfigVal.str s)) = some s := rfl

theorem deepMerge_alookup_of_not_mem :
    ∀ (update base : List (String × ConfigVal)) (k : String),
      alookup update k = none →
      alookup (deepMerge base update) k = alookup base k := by
  intro update
  induction update with
  | nil => intro base k _; rw [deepMerge_nil]
  | cons hd tl ih =>
      intro base k hk
      obtain ⟨k', v⟩ := hd
      simp only [alookup] at hk
      by_cases h : k' = k
      · simp [h] at hk
      · rw [if_neg h] at hk
        rw [deepMerge_cons]
        split <;> rw [ih _ _ hk, alookup_aset_ne _ _ _ _ h]

theorem deepMerge_alookup_dict :
    ∀ (update base : List (String × ConfigVal)) (k : String)
      (b u : List (String × ConfigVal)),
      (update.map Prod.fst).Nodup →
      alookup base k = some (ConfigVal.dict b) →
      alookup update k = some (ConfigVal.dict u) →
      alookup (deepMerge base update) k = some (ConfigVal.dict (deepMerge b u)) := by
  intro update
  induction update with
  | nil => intro base k b u _ _ hu; simp [alookup] at hu
  | cons hd tl ih =>
      intro base k b u hnd hb hu
      obtain ⟨k', v⟩ := hd
      simp only [alookup] at hu
      simp only [List.map_cons, List.nodup_cons] at hnd
      by_cases h : k' = k
      · subst h
        rw [if_pos rfl] at hu
        injection hu with hv
        subst hv
        have htl : alookup tl k' = none := (alookup_eq_none_iff tl k').2 hnd.1
        rw [deepMerge_cons]
        simp only [hb]
        rw [deepMerge_alookup_of_not_mem tl _ k' htl, alookup_aset_self]
      · rw [if_neg h] at hu
        rw [deepMerge_cons]
        split
        · apply ih _ _ b u hnd.2 _ hu
          rw [alookup_aset_ne _ _ _ _ h]; exact hb
        · apply ih _ _ b u hnd.2 _ hu
          rw [alookup_aset_ne _ _ _ _ h]; exact hb

theorem deepMerge_alookup_of_mem_nondict :
    ∀ (update base : List (String × ConfigVal)) (k : String) (v : ConfigVal),
      (update.map Prod.fst).Nodup →
      alookup update k = some v →
      (∀ es, v ≠ ConfigVal.dict es) →
      alookup (deepMerge base update) k = some v := by
  intro update
  induction update with
  | nil => intro base k v _ hu _; simp [alookup] at hu
  | cons hd tl ih =>
      intro base k v hnd hu hnondict
      obtain ⟨k', v'⟩ := hd
      simp only [alookup] at hu
      simp only [List.map_cons, List.nodup_cons] at hnd
      by_cases h : k' = k
      · subst h
        rw [if_pos rfl] at hu
        injection hu with hv
        subst hv
        have htl : alookup tl k' = none := (alookup_eq_none_iff tl k').2 hnd.1
        rw [deepMerge_cons]
        split
        · exact absurd rfl (hnondict _)
        · rw [deepMerge_alookup_of_not_mem tl _ k' htl, alookup_aset_self]
      · rw [if_neg h] at hu
        rw [deepMerge_cons]
        split <;> exact ih _ _ _ hnd.2 hu hnondict

/-! ## C9 -/

/-- C9: deep-merging the file configuration onto the defaults never drops
a key that the file omits.  First conjunct: any key absent from the
update keeps exactly its base binding.  Second conjunct: when both sides
bind a key to a nested dict, the merged binding is the recursive merge —
so the first conjunct applies again at every deeper nesting level the
file omits. -/
theorem C9_deep_merge_additive_for_omitted_keys :
    (∀ (base update : List (String × ConfigVal)) (k : String),
       alookup update k = none →
       alookup (deepMerge base update) k = alookup base k) ∧
    (∀ (base update : List (String × ConfigVal)) (k : String)
       (b u : List (String × ConfigVal)),
       (update.map Prod.fst).Nodup →
       alookup base k = some (ConfigVal.dict b) →
       alookup update k = some (ConfigVal.dict u) →
       alookup (deepMerge base update) k = some (ConfigVal.dict (deepMerge b u))) :=
  ⟨fun base update k h => deepMerge_alookup_of_not_mem update base k h,
   fun base update k b u hnd hb hu => deepMerge_alookup_dict update base k b u hnd hb hu⟩

/-- Witness for C9 at concrete inputs: `"a"` is omitted by the update and
survives with its default value; the nested dicts under `"m"` merge
recursively. -/
theorem C9_witness :
    alookup (deepMerge [("a", ConfigVal.nat 1), ("b", ConfigVal.nat 2)]
        [("b", ConfigVal.nat 9)]) "a"
      = alookup [("a", ConfigVal.nat 1), ("b", ConfigVal.nat 2)] "a" ∧
    alookup (deepMerge [("m", ConfigVal.dict [("x", ConfigVal.nat 1)])]
        [("m", ConfigVal.dict [("y", ConfigVal.nat 2)])]) "m"
      = some (ConfigVal.dict
          (deepMerge [("x", ConfigVal.nat 1)] [("y", ConfigVal.nat 2)])) :=
  ⟨C9_deep_merge_additive_for_omitted_keys.1 _ _ "a" rfl,
   C9_deep_merge_additive_for_omitted_keys.2 _ _ "m" _ _ (by simp) rfl rfl⟩

/-! ## C5 -/

/-- C5 counterexample: with `--host cli-host` passed as an explicit
override and a config file that also supplies `vmware_aria.host`, the
resolved configuration holds the FILE's value, not the override's —
`load_config` bakes the overrides into the defaults and then merges the
file on top, so the file has the highest precedence, contrary to the
claim. -/
theorem C5_counterexample :
    C5kw.host = some "cli-host" ∧
    resolvedHostStr (load_config C5kw (some C5file)) = some "file-host" ∧
    resolvedHostStr (load_config C5kw (some C5file)) ≠ some "cli-host" := by
  have h1 := deepMerge_alookup_dict C5file (default_config C5kw) "vmware_aria"
    (defaultAria C5kw) [("host", ConfigVal.str "file-host")] (by simp [C5file]) rfl rfl
  have h2 := deepMerge_alookup_of_mem_nondict [("host", ConfigVal.str "file-host")]
    (defaultAria C5kw) "host" (ConfigVal.str "file-host") (by simp) rfl
    (fun es hcontr => by cases hcontr)
  have hval : resolvedHostStr (load_config C5kw (some C5file)) = some "file-host" := by
    show strVal ((dictEntries (alookup (deepMerge (default_config C5kw) C5file)
        "vmware_aria")).bind (fun aria => alookup aria "host")) = some "file-host"
    rw [h1]
    simp only [dictEntries_dict, Option.some_bind]
    rw [h2, strVal_str]
  refine ⟨rfl, hval, ?_⟩
  rw [hval]
  decide

theorem load_config_field_supplied (kw : Kwargs) (fc ssec : List (String × ConfigVal))
    (sec field : String) (v : ConfigVal)
    (hfc : (fc.map Prod.fst).Nodup)
    (hsec : alookup fc sec = some (ConfigVal.dict ssec))
    (hssec : (ssec.map Prod.fst).Nodup)
    (hfield : alookup ssec field = some v)
    (hnondict : ∀ es, v ≠ ConfigVal.dict es)
    (hb : ∃ bsec, alookup (default_config kw) sec = some (ConfigVal.dict bsec)) :
    resolvedField sec field (load_config kw (some fc)) = some v := by
  obtain ⟨bsec, hb⟩ := hb
  have h1 := deepMerge_alookup_dict fc (default_config kw) sec bsec ssec hfc hb hsec
  have h2 := deepMerge_alookup_of_mem_nondict ssec bsec field v hssec hfield hnondict
  show (dictEntries (alookup (deepMerge (default_config kw) fc) sec)).bind
      (fun es => alookup es field) = some v
  rw [h1]
  simp only [dictEntries_dict, Option.some_bind]
  exact h2

theorem load_config_field_omitted (kw : Kwargs) (fc : List (String × ConfigVal))
    (sec field : String) (bsec : List (String × ConfigVal))
    (hb : alookup (default_config kw) sec = some (ConfigVal.dict bsec))
    (hfc : (fc.map Prod.fst).Nodup)
    (homit : alookup fc sec = none ∨
      ∃ ssec, alookup fc sec = some (ConfigVal.dict ssec) ∧
        (ssec.map Prod.fst).Nodup ∧ alookup ssec field = none) :
    resolvedField sec field (load_config kw (some fc)) = alookup bsec field := by
  rcases homit with hnone | ⟨ssec, hsec, hssec, hfield⟩
  · have h1 := deepMerge_alookup_of_not_mem fc (default_config kw) sec hnone
    show (dictEntries (alookup (deepMerge (default_config kw) fc) sec)).bind
        (fun es => alookup es field) = alookup bsec field
    rw [h1, hb]
    simp only [dictEntries_dict, Option.some_bind]
  · have h1 := deepMerge_alookup_dict fc (default_config kw) sec bsec ssec hfc hb hsec
    have h2 := deepMerge_alookup_of_not_mem ssec bsec field hfield
    show (dictEntries (alookup (deepMerge (default_config kw) fc) sec)).bind
        (fun es => alookup es field) = alookup bsec field
    rw [h1]
    simp only [dictEntries_dict, Option.some_bind]
    exact h2

/-- C5 (amended): when both the configuration file and an explicit
override supply the same individually-settable field — host, username,
password, verify-ssl, port, interval, or log level — the resolved
configuration holds the FILE's scalar value (file wins over the
override); when the file omits the field (or its whole section), the
field resolves to its `default_config` entry, which holds exactly the
explicit override's value. -/
theorem C5_amended_file_over_overrides :
    (∀ (kw : Kwargs) (fc ssec : List (String × ConfigVal)) (sec field : String)
       (v : ConfigVal),
       sec = "vmware_aria" ∨ sec = "exporter" →
       (fc.map Prod.fst).Nodup →
       alookup fc sec = some (ConfigVal.dict ssec) →
       (ssec.map Prod.fst).Nodup →
       alookup ssec field = some v → (∀ es, v ≠ ConfigVal.dict es) →
       resolvedField sec field (load_config kw (some fc)) = some v) ∧
    (∀ (kw : Kwargs) (fc : List (String × ConfigVal)) (field : String),
       (fc.map Prod.fst).Nodup →
       (alookup fc "vmware_aria" = none ∨
        ∃ ssec, alookup fc "vmware_aria" = some (ConfigVal.dict ssec) ∧
          (ssec.map Prod.fst).Nodup ∧ alookup ssec field = none) →
       resolvedField "vmware_aria" field (load_config kw (some fc))
         = alookup (defaultAria kw) field) ∧
    (∀ (kw : Kwargs) (fc : List (String × ConfigVal)) (field : String),
       (fc.map Prod.fst).Nodup →
       (alookup fc "exporter" = none ∨
        ∃ ssec, alookup fc "exporter" = some (ConfigVal.dict ssec) ∧
          (ssec.map Prod.fst).Nodup ∧ alookup ssec field = none) →
       resolvedField "exporter" field (load_config kw (some fc))
         = alookup (defaultExporter kw) field) ∧
    (∀ kw : Kwargs,
       alookup (defaultAria kw) "host" = some (ConfigVal.str (kw.host.getD "192.168.31.31")) ∧
       alookup (defaultAria kw) "username" = some (ConfigVal.str (kw.username.getD "admin")) ∧
       alookup (defaultAria kw) "password" = some (ConfigVal.str (kw.password.getD "")) ∧
       alookup (defaultAria kw) "verify_ssl" = some (ConfigVal.bool (kw.verify_ssl.getD false)) ∧
       alookup (defaultExporter kw) "port" = some (ConfigVal.nat (kw.port.getD 8000)) ∧
       alookup (defaultExporter kw) "interval" = some (ConfigVal.nat (kw.interval.getD 300)) ∧
       alookup (defaultExporter kw) "log_level" = some (ConfigVal.str (kw.log_level.getD "INFO"))) := by
  refine ⟨?_, ?_, ?_, ?_⟩
  · intro kw fc ssec sec field v hsec12 hfc hsec hssec hfield hnondict
    apply load_config_field_supplied kw fc ssec sec field v hfc hsec hssec hfield hnondict
    rcases hsec12 with h | h <;> subst h
    · exact ⟨defaultAria kw, rfl⟩
    · exact ⟨defaultExporter kw, rfl⟩
  · intro kw fc field hfc homit
    exact load_config_field_omitted kw fc "vmware_aria" field (defaultAria kw) rfl hfc homit
  · intro kw fc field hfc homit
    exact load_config_field_omitted kw fc "exporter" field (defaultExporter kw) rfl hfc homit
  · intro kw
    exact ⟨rfl, rfl, rfl, rfl, rfl, rfl, rfl⟩

/-- Witness for the amended C5 at concrete inputs: the file's
`vmware_aria.host` beats `--host cli-host`; a file `exporter.port`
beats `--port 1234`; a file omitting `username` leaves that field's
default (= override) entry visible; and the default entry for `host`
carries exactly the explicit override's value. -/
theorem C5_amended_witness :
    resolvedField "vmware_aria" "host" (load_config C5kw (some C5file))
      = some (ConfigVal.str "file-host") ∧
    resolvedField "exporter" "port" (load_config { port := some 1234 }
        (some [("exporter", ConfigVal.dict [("port", ConfigVal.nat 9100)])]))
      = some (ConfigVal.nat 9100) ∧
    resolvedField "vmware_aria" "username" (load_config C5kw (some C5file))
      = alookup (defaultAria C5kw) "username" ∧
    alookup (defaultAria C5kw) "host" = some (ConfigVal.str (C5kw.host.getD "192.168.31.31")) :=
  ⟨C5_amended_file_over_overrides.1 C5kw C5file _ "vmware_aria" "host" _
      (Or.inl rfl) (by simp [C5file]) rfl (by simp) rfl (fun es h => by cases h),
   C5_amended_file_over_overrides.1 { port := some 1234 } _ _ "exporter" "port" _
      (Or.inr rfl) (by simp) rfl (by simp) rfl (fun es h => by cases h),
   C5_amended_file_over_overrides.2.1 C5kw C5file "username" (by simp [C5file])
      (Or.inr ⟨[("host", ConfigVal.str "file-host")], rfl, by simp, rfl⟩),
   (C5_amended_file_over_overrides.2.2.2 C5kw).1⟩

/-! ## C10 -/

/-- C10: `update_metrics` is total over arbitrarily-shaped items.  A
resource missing `resourceKey` (or missing `resourceKindKey` /
`adapterKindKey` inside it) is counted under label value `unknown`; an
alert missing `alertLevel` / `status` is counted under `unknown`; and a
resource whose `identifier` is missing or falsy (`None` or `""`) triggers
no stats fetch and sets no performance series while still being counted. -/
theorem C10_update_metrics_total_on_malformed_items :
    (∀ ident : Option String,
       kindOf { resourceKey := none, identifier := ident } = "unknown" ∧
       adapterOf { resourceKey := none, identifier := ident } = "unknown") ∧
    (∀ nm ak ident : Option String,
       kindOf { resourceKey := some { name := nm, resourceKindKey := none, adapterKindKey := ak }, identifier := ident } = "unknown") ∧
    (∀ nm rk ident : Option String,
       adapterOf { resourceKey := some { name := nm, resourceKindKey := rk, adapterKindKey := none }, identifier := ident } = "unknown") ∧
    (∀ st : Option String, criticalityOf { alertLevel := none, status := st } = "unknown") ∧
    (∀ lvl : Option String, alertStatusOf { alertLevel := lvl, status := none } = "unknown") ∧
    (∀ (detailedTypes : List String) (maxStats : Nat)
       (statsOf : String → List Stat)
       (search : String → String → Except String (Option (List String)))
       (patterns : List (String × String)) (s : CycleState) (r : Resource),
       r.identifier = none ∨ r.identifier = some "" →
       processResource detailedTypes maxStats statsOf search patterns s r =
         { s with counts := bump s.counts (kindOf r, adapterOf r) }) := by
  refine ⟨fun _ => ⟨rfl, rfl⟩, fun _ _ _ => rfl, fun _ _ _ => rfl,
    fun _ => rfl, fun _ => rfl, ?_⟩
  intro dts ms so se pats s r hid
  unfold processResource
  rcases hid with h | h <;> rw [h] <;>
    by_cases hk : kindOf r ∈ dts <;> simp [hk]

/-- Witness for C10: a malformed resource is counted as
`("unknown","unknown")`; a detailed-kind resource with a falsy
identifier is counted but fetches nothing and sets no series. -/
theorem C10_witness :
    kindOf { resourceKey := none, identifier := some "id-1" } = "unknown" ∧
    processResource ["VirtualMachine"] 10 (fun _ => [])
        (fun _ _ => Except.ok none) [] {}
        { resourceKey := some { name := some "vm-1", resourceKindKey := some "VirtualMachine", adapterKindKey := some "VMWARE" }, identifier := some "" } =
      { counts := [(("VirtualMachine", "VMWARE"), 1)], fetches := [], perf := [] } :=
  ⟨(C10_update_metrics_total_on_malformed_items.1 (some "id-1")).1,
   (C10_update_metrics_total_on_malformed_items.2.2.2.2.2 ["VirtualMachine"] 10
      (fun _ => []) (fun _ _ => Except.ok none) [] {} _ (Or.inr rfl)).trans rfl⟩

/-! ## C7 -/

/-- C7: stats reduction.  A sample whose `data` sequence is non-empty
with a numeric last point produces exactly one performance series whose
value is that last point; an empty (or missing) `data` sequence
contributes no series; and only the first `max_stats_per_resource`
samples of a resource contribute series. -/
theorem C7_stats_reduction :
    (∀ (rid rname rkind : String) (extra : List (String × String)) (stat : Stat)
       (vs : List JVal) (q : Rat),
       stat.data = some vs → vs.getLast? = some (JVal.num q) →
       processStat rid rname rkind extra stat =
         some { resource_id := rid, resource_name := rname, resource_type := rkind,
                metric_name := (stat.statKey.getD {}).key.getD "unknown",
                unit := (stat.statKey.getD {}).unit.getD "", extra := extra,
                value := q }) ∧
    (∀ (rid rname rkind : String) (extra : List (String × String)) (stat : Stat),
       stat.data = some [] ∨ stat.data = none →
       processStat rid rname rkind extra stat = none) ∧
    (∀ (rid rname rkind : String) (extra : List (String × String))
       (maxStats : Nat) (stats : List Stat),
       (processStats rid rname rkind extra maxStats stats).length ≤ maxStats ∧
       processStats rid rname rkind extra maxStats stats
         = processStats rid rname rkind extra maxStats (stats.take maxStats)) := by
  refine ⟨?_, ?_, ?_⟩
  · intro rid rname rkind extra stat vs q hdata hlast
    simp [processStat, hdata, hlast]
  · intro rid rname rkind extra stat h
    rcases h with h | h <;> simp [processStat, h]
  · intro rid rname rkind extra maxStats stats
    constructor
    · exact le_trans (List.length_filterMap_le _ _) (List.length_take_le maxStats stats)
    · simp [processStats, List.take_take]

/-- Witness for C7: a concrete sample with two points surfaces the last
one; an empty sample surfaces nothing; `max_stats = 1` keeps only the
first sample's series. -/
theorem C7_witness :
    processStat "id-1" "vm-1" "VirtualMachine" []
        { statKey := some { key := some "cpu|usage", unit := some "%" },
          data := some [JVal.num 1, JVal.num 7] } =
      some { resource_id := "id-1", resource_name := "vm-1",
             resource_type := "VirtualMachine",
             metric_name := (((some { key := some "cpu|usage", unit := some "%" }
               : Option StatKey)).getD {}).key.getD "unknown",
             unit := (((some { key := some "cpu|usage", unit := some "%" }
               : Option StatKey)).getD {}).unit.getD "", extra := [], value := 7 } ∧
    processStat "id-1" "vm-1" "VirtualMachine" [] { statKey := none, data := some [] } = none ∧
    (processStats "id-1" "vm-1" "VirtualMachine" [] 1
        [{ statKey := none, data := some [JVal.num 3] },
         { statKey := none, data := some [JVal.num 4] }]).length ≤ 1 :=
  ⟨C7_stats_reduction.1 "id-1" "vm-1" "VirtualMachine" [] _ [JVal.num 1, JVal.num 7] 7 rfl rfl,
   C7_stats_reduction.2.1 "id-1" "vm-1" "VirtualMachine" [] _ (Or.inl rfl),
   (C7_stats_reduction.2.2 "id-1" "vm-1" "VirtualMachine" [] 1 _).1⟩

/-! ## C4 -/

/-- C4 counterexample: a non-2xx terminal response (HTTP 304) whose body
parses and carries a token does NOT abort startup — `raise_for_status`
raises only for 4xx/5xx, so the constructor succeeds and the scrape
listener is started, contrary to the claim's "any non-2xx aborts". -/
theorem C4_counterexample :
    (¬ (200 ≤ 304 ∧ 304 ≤ 299)) ∧
    serverStarted (ReqOutcome.resp 304 (some { token := some "tok" })) = true :=
  ⟨by decide, rfl⟩

/-- C4 (amended): for every token-acquisition failure the source actually
treats as fatal — network error, HTTP 4xx/5xx (the statuses
`raise_for_status` raises for), unparseable body, or a missing/empty
token field — `authenticate` raises, the constructor propagates the
exception, and the scrape listener is never started.  Conversely, a
response whose status is outside 400–599 and whose parsed body carries a
non-empty token does NOT abort: the listener starts. -/
theorem C4_amended_auth_failure_aborts :
    (∀ o : ReqOutcome AuthBody, authAcquisitionFails o →
      (∀ m : Metrics, ∃ e, (authenticate o m).1 = Except.error e) ∧
      (∃ e, startup o = Except.error e) ∧
      serverStarted o = false) ∧
    (∀ (s : Nat) (b : AuthBody), ¬ (400 ≤ s ∧ s < 600) → pyTruthyStr b.token = true →
      serverStarted (ReqOutcome.resp s (some b)) = true) := by
  constructor
  · intro o hfail
    have hauth : ∀ m : Metrics, ∃ e, (authenticate o m).1 = Except.error e := by
      intro m
      cases o with
      | exc name => exact ⟨name, rfl⟩
      | resp s body =>
          simp only [authAcquisitionFails] at hfail
          rcases hfail with h4 | hb | ⟨b, hb, ht⟩
          · exact ⟨"HTTPError", by simp [authenticate, h4]⟩
          · subst hb
            by_cases h4 : 400 ≤ s ∧ s < 600
            · exact ⟨"HTTPError", by simp [authenticate, h4]⟩
            · exact ⟨"JSONDecodeError", by simp [authenticate, h4]⟩
          · subst hb
            by_cases h4 : 400 ≤ s ∧ s < 600
            · exact ⟨"HTTPError", by simp [authenticate, h4]⟩
            · exact ⟨"No token received from authentication",
                by simp [authenticate, h4, ht]⟩
    obtain ⟨e, he⟩ := hauth Metrics.zero
    have hstart : startup o = Except.error e := by
      simp [startup, initExporter, he, Except.map]
    exact ⟨hauth, ⟨e, hstart⟩, by simp [serverStarted, hstart]⟩
  · intro s b h4 ht
    have hok : (authenticate (ReqOutcome.resp s (some b)) Metrics.zero).1
        = Except.ok (b.token.getD "") := by
      simp [authenticate, h4, ht]
    simp [serverStarted, startup, initExporter, hok, Except.map]

/-- Witness for the amended C4: the spec's own scenario, HTTP 401 on
token acquisition, aborts startup before the listener starts; the 304
response with a token starts it. -/
theorem C4_amended_witness :
    (∃ e, startup (ReqOutcome.resp 401 (some { token := none })) = Except.error e) ∧
    serverStarted (ReqOutcome.resp 401 (some { token := none })) = false ∧
    serverStarted (ReqOutcome.resp 304 (some { token := some "tok" })) = true :=
  ⟨(C4_amended_auth_failure_aborts.1 _ (by exact Or.inl (by decide))).2.1,
   (C4_amended_auth_failure_aborts.1 _ (by exact Or.inl (by decide))).2.2,
   C4_amended_auth_failure_aborts.2 304 { token := some "tok" } (by decide) rfl⟩

/-! ## C6 -/

/-- C6 counterexample: a transport-level failure (the `session.get` call
raises, e.g. `ConnectionError`) records NO request count and NO latency
observation — the increments sit after the call inside the `try`, so the
`except` path skips them, contrary to "regardless of the call's
outcome". -/
theorem C6_counterexample :
    (make_api_request (α := AlertsBody) "/api/alerts" "GET"
        (ReqOutcome.exc "ConnectionError") Metrics.zero).2.apiRequestsTotal
      = Metrics.zero.apiRequestsTotal ∧
    (make_api_request (α := AlertsBody) "/api/alerts" "GET"
        (ReqOutcome.exc "ConnectionError") Metrics.zero).2.apiRequestDurationCount
      = Metrics.zero.apiRequestDurationCount :=
  ⟨rfl, rfl⟩

/-- C6 (amended): the request-count and latency series are recorded
exactly when an HTTP response object exists, whatever its status
(including 4xx/5xx and unparseable bodies): the count at
`(endpoint, method, status)` and one latency observation at
`(endpoint, method)` — latency carries no status label.  A call whose
transport raises records neither, bumping only the error counter. -/
theorem C6_amended_api_metrics_need_response :
    (∀ (α : Type) (endpoint method : String) (status : Nat) (body : Option α) (m : Metrics),
       pyUpper method = "GET" ∨ pyUpper method = "POST" →
       (make_api_request endpoint method (ReqOutcome.resp status body) m).2.apiRequestsTotal
           (endpoint, pyUpper method, status)
         = m.apiRequestsTotal (endpoint, pyUpper method, status) + 1 ∧
       (make_api_request endpoint method (ReqOutcome.resp status body) m).2.apiRequestDurationCount
           (endpoint, pyUpper method)
         = m.apiRequestDurationCount (endpoint, pyUpper method) + 1) ∧
    (∀ (α : Type) (endpoint method excName : String) (m : Metrics),
       pyUpper method = "GET" ∨ pyUpper method = "POST" →
       (make_api_request (α := α) endpoint method (ReqOutcome.exc excName) m).2.apiRequestsTotal
         = m.apiRequestsTotal ∧
       (make_api_request (α := α) endpoint method (ReqOutcome.exc excName) m).2.apiRequestDurationCount
         = m.apiRequestDurationCount ∧
       (make_api_request (α := α) endpoint method (ReqOutcome.exc excName) m).2.collectionErrorsTotal
           (endpointErrorLabel endpoint, excName)
         = m.collectionErrorsTotal (endpointErrorLabel endpoint, excName) + 1) := by
  constructor
  · intro α endpoint method status body m hm
    have hvalid : ¬ (pyUpper method ≠ "GET" ∧ pyUpper method ≠ "POST") := by
      rcases hm with h | h <;> simp [h]
    by_cases h4 : 400 ≤ status ∧ status < 600 <;> cases body <;>
      simp [make_api_request, hvalid, h4, Metrics.recordApi, Metrics.incErr, incAt,
        Function.update_same]
  · intro α endpoint method excName m hm
    have hvalid : ¬ (pyUpper method ≠ "GET" ∧ pyUpper method ≠ "POST") := by
      rcases hm with h | h <;> simp [h]
    refine ⟨?_, ?_, ?_⟩ <;>
      simp [make_api_request, hvalid, Metrics.incErr, incAt, Function.update_same]

/-- Witness for the amended C6: a 500 response still records count and
latency; a transport error records neither but bumps the error counter. -/
theorem C6_witness :
    ((make_api_request "/api/alerts" "GET" (ReqOutcome.resp 500 (none : Option AlertsBody))
        Metrics.zero).2.apiRequestsTotal ("/api/alerts", "GET", 500)
      = Metrics.zero.apiRequestsTotal ("/api/alerts", "GET", 500) + 1) ∧
    ((make_api_request (α := AlertsBody) "/api/alerts" "GET" (ReqOutcome.exc "ConnectionError")
        Metrics.zero).2.collectionErrorsTotal (endpointErrorLabel "/api/alerts", "ConnectionError")
      = Metrics.zero.collectionErrorsTotal (endpointErrorLabel "/api/alerts", "ConnectionError") + 1) :=
  ⟨(C6_amended_api_metrics_need_response.1 AlertsBody "/api/alerts" "GET" 500 none
      Metrics.zero (Or.inl rfl)).1,
   (C6_amended_api_metrics_need_response.2 AlertsBody "/api/alerts" "GET" "ConnectionError"
      Metrics.zero (Or.inl rfl)).2.2⟩

/-! ## Counting-dict lemmas (for C2) -/

theorem alookup_bump (c : List ((String × String) × Nat)) (k k₀ : String × String) :
    alookup (bump c k) k₀ =
      if k₀ = k then some ((alookup c k).getD 0 + 1) else alookup c k₀ := by
  unfold bump
  by_cases h : k₀ = k
  · subst h; rw [if_pos rfl, alookup_aset_self]
  · rw [if_neg h, alookup_aset_ne _ _ _ _ (Ne.symm h)]

theorem buildCounts_append_singleton {α : Type} (key : α → String × String)
    (xs : List α) (x : α) :
    buildCounts key (xs ++ [x]) = bump (buildCounts key xs) (key x) := by
  simp [buildCounts, List.foldl_append]

theorem alookup_buildCounts {α : Type} (key : α → String × String) (xs : List α)
    (k : String × String) :
    alookup (buildCounts key xs) k =
      if 0 < xs.countP (fun x => decide (key x = k))
      then some (xs.countP (fun x => decide (key x = k))) else none := by
  induction xs using List.reverseRecOn with
  | nil => simp [buildCounts, alookup]
  | append_singleton xs x ih =>
      rw [buildCounts_append_singleton, alookup_bump, ih]
      by_cases hx : k = key x
      · have hpx : decide (key x = k) = true := by simp [hx]
        rw [if_pos hx, ← hx, ih]
        by_cases hc : 0 < xs.countP (fun y => decide (key y = k))
        · simp [List.countP_append, List.countP_cons, hpx, hc]
        · simp [List.countP_append, List.countP_cons, hpx, hc]
          intro a ha
          have h0 : xs.countP (fun y => decide (key y = k)) = 0 := Nat.eq_zero_of_not_pos hc
          have h1 := List.countP_eq_zero.mp h0 a ha
          simpa using h1
      · have hpx : decide (key x = k) = false := by
          simp only [decide_eq_false_iff_not]
          exact fun hcontr => hx hcontr.symm
        rw [if_neg hx]
        simp [List.countP_append, List.countP_cons, hpx]

theorem bump_keys_nodup (c : List ((String × String) × Nat)) (k : String × String)
    (h : (c.map Prod.fst).Nodup) : ((bump c k).map Prod.fst).Nodup := by
  unfold bump
  by_cases hm : k ∈ c.map Prod.fst
  · rw [aset_map_fst_of_mem _ _ _ hm]; exact h
  · rw [aset_map_fst_of_not_mem _ _ _ hm]
    simp [List.nodup_append, h, hm]

theorem buildCounts_keys_nodup {α : Type} (key : α → String × String) (xs : List α) :
    ((buildCounts key xs).map Prod.fst).Nodup := by
  suffices h : ∀ c : List ((String × String) × Nat), (c.map Prod.fst).Nodup →
      ((xs.foldl (fun c x => bump c (key x)) c).map Prod.fst).Nodup from h [] (by simp)
  induction xs with
  | nil => intro c hc; exact hc
  | cons x xs ih => intro c hc; exact ih _ (bump_keys_nodup c (key x) hc)

theorem setAll_not_mem (g : GaugeState) (l : List ((String × String) × Nat))
    (k : String × String) (h : k ∉ l.map Prod.fst) : setAll g l k = g k := by
  induction l generalizing g with
  | nil => rfl
  | cons hd tl ih =>
      obtain ⟨k', c⟩ := hd
      simp only [List.map_cons, List.mem_cons] at h
      push_neg at h
      show setAll (Function.update g k' (some c)) tl k = g k
      rw [ih _ h.2]
      exact Function.update_noteq h.1 _ _

theorem setAll_lookup (g : GaugeState) (l : List ((String × String) × Nat))
    (k : String × String) (n : Nat) (hnd : (l.map Prod.fst).Nodup)
    (h : alookup l k = some n) : setAll g l k = some n := by
  induction l generalizing g with
  | nil => simp [alookup] at h
  | cons hd tl ih =>
      obtain ⟨k', c⟩ := hd
      simp only [List.map_cons, List.nodup_cons] at hnd
      simp only [alookup] at h
      by_cases hk : k' = k
      · subst hk
        rw [if_pos rfl] at h
        injection h with h
        subst h
        show setAll (Function.update g k' (some c)) tl k' = some c
        rw [setAll_not_mem _ _ _ hnd.1, Function.update_same]
      · rw [if_neg hk] at h
        show setAll (Function.update g k' (some c)) tl k = some n
        exact ih _ hnd.2 h

/-! ## C2 -/

/-- C2: one `update_metrics` cycle SETS the gauge series.  If a cycle
observes `n > 0` resources under a `(resource-kind, adapter-kind)` pair,
the resource-count series for that pair reads exactly `n` afterwards,
whatever value (if any) the gauge held before — never the sum of old and
new; likewise for the alert-count series per `(criticality, status)`. -/
theorem C2_gauges_set_not_increment :
    (∀ (g : GaugeState) (resources : List Resource) (kind adapter : String) (n : Nat),
       resources.countP (fun r => decide ((kindOf r, adapterOf r) = (kind, adapter))) = n →
       0 < n →
       updateResourceCountGauge g resources (kind, adapter) = some n) ∧
    (∀ (g : GaugeState) (alerts : List Alert) (crit st : String) (n : Nat),
       alerts.countP (fun a => decide ((criticalityOf a, alertStatusOf a) = (crit, st))) = n →
       0 < n →
       updateAlertCountGauge g alerts (crit, st) = some n) := by
  constructor
  · intro g resources kind adapter n hcount hn
    unfold updateResourceCountGauge
    apply setAll_lookup _ _ _ _ (buildCounts_keys_nodup _ _)
    rw [alookup_buildCounts]
    rw [hcount]
    simp [hn]
  · intro g alerts crit st n hcount hn
    unfold updateAlertCountGauge
    apply setAll_lookup _ _ _ _ (buildCounts_keys_nodup _ _)
    rw [alookup_buildCounts]
    rw [hcount]
    simp [hn]

/-- Witness for C2: 7 VirtualMachine/VMWARE resources observed while the
gauge still holds 5 from the previous cycle read back as exactly 7, not
12; one CRITICAL/ACTIVE alert reads back as 1. -/
theorem C2_witness :
    updateResourceCountGauge
        (Function.update (fun _ => (none : Option Nat)) ("VirtualMachine", "VMWARE") (some 5))
        (List.replicate 7 { resourceKey := some { name := some "vm", resourceKindKey := some "VirtualMachine", adapterKindKey := some "VMWARE" }, identifier := none })
        ("VirtualMachine", "VMWARE") = some 7 ∧
    updateAlertCountGauge (fun _ => none)
        [{ alertLevel := some "CRITICAL", status := some "ACTIVE" }]
        ("CRITICAL", "ACTIVE") = some 1 :=
  ⟨C2_gauges_set_not_increment.1 _ _ "VirtualMachine" "VMWARE" 7 (by decide) (by decide),
   C2_gauges_set_not_increment.2 _ _ "CRITICAL" "ACTIVE" 1 (by decide) (by decide)⟩

/-! ## Label-extraction lemmas (for C8) -/

theorem extract_foldl_not_mem
    (search : String → String → Except String (Option (List String))) (nm : String) :
    ∀ (ps : List (String × String)) (acc : List (String × String)) (l : String),
      l ∉ ps.map Prod.fst →
      alookup (ps.foldl (extractStep search nm) acc) l = alookup acc l := by
  intro ps
  induction ps with
  | nil => intro acc l _; rfl
  | cons hd tl ih =>
      intro acc l hl
      obtain ⟨ln, pat⟩ := hd
      simp only [List.map_cons, List.mem_cons] at hl
      push_neg at hl
      rw [List.foldl_cons, ih _ _ hl.2]
      unfold extractStep
      split
      · exact alookup_aset_ne _ _ _ _ (Ne.symm hl.1)
      · rfl

theorem nodup_middle_not_mem {β : Type} (a : β) (l₁ l₂ : List β)
    (h : (l₁ ++ a :: l₂).Nodup) : a ∉ l₁ ∧ a ∉ l₂ := by
  rw [List.nodup_middle] at h
  rcases List.nodup_cons.mp h with ⟨hmem, _⟩
  simp only [List.mem_append] at hmem
  push_neg at hmem
  exact hmem

/-! ## C8 -/

/-- C8: label derivation.  With distinct configured label names: a
pattern that matches with at least one capture group binds its label
name to the first group's text; a pattern that does not match (or whose
evaluation raises) leaves no entry for its label name; and a pattern
whose evaluation raises does not disturb the processing of the other
patterns — the result is as if that pattern were absent. -/
theorem C8_label_extraction :
    ∀ (search : String → String → Except String (Option (List String)))
      (patterns : List (String × String)) (r : Resource),
      (patterns.map Prod.fst).Nodup →
      (∀ (l pat g : String) (gs : List String),
         (l, pat) ∈ patterns →
         search pat ((r.resourceKey.getD {}).name.getD "") = Except.ok (some (g :: gs)) →
         alookup (extract_labels search patterns r) l = some g) ∧
      (∀ l pat : String,
         (l, pat) ∈ patterns →
         (search pat ((r.resourceKey.getD {}).name.getD "") = Except.ok none ∨
          (∃ e, search pat ((r.resourceKey.getD {}).name.getD "") = Except.error e)) →
         alookup (extract_labels search patterns r) l = none) ∧
      (∀ (pre post : List (String × String)) (l pat e : String),
         patterns = pre ++ (l, pat) :: post →
         search pat ((r.resourceKey.getD {}).name.getD "") = Except.error e →
         extract_labels search patterns r = extract_labels search (pre ++ post) r) := by
  intro search patterns r hnd
  refine ⟨?_, ?_, ?_⟩
  · intro l pat g gs hmem hsearch
    obtain ⟨pre, post, hps⟩ := List.append_of_mem hmem
    subst hps
    simp only [List.map_append, List.map_cons] at hnd
    obtain ⟨hpre, hpost⟩ := nodup_middle_not_mem l (pre.map Prod.fst) (post.map Prod.fst) hnd
    unfold extract_labels
    rw [List.foldl_append, List.foldl_cons, extract_foldl_not_mem search _ post _ l hpost]
    unfold extractStep
    simp only [hsearch]
    exact alookup_aset_self _ _ _
  · intro l pat hmem hsearch
    obtain ⟨pre, post, hps⟩ := List.append_of_mem hmem
    subst hps
    simp only [List.map_append, List.map_cons] at hnd
    obtain ⟨hpre, hpost⟩ := nodup_middle_not_mem l (pre.map Prod.fst) (post.map Prod.fst) hnd
    unfold extract_labels
    rw [List.foldl_append, List.foldl_cons, extract_foldl_not_mem search _ post _ l hpost]
    have hstep : extractStep search ((r.resourceKey.getD {}).name.getD "")
        (pre.foldl (extractStep search ((r.resourceKey.getD {}).name.getD "")) []) (l, pat)
        = pre.foldl (extractStep search ((r.resourceKey.getD {}).name.getD "")) [] := by
      unfold extractStep
      rcases hsearch with h | ⟨e, h⟩ <;> simp only [h]
    rw [hstep, extract_foldl_not_mem search _ pre _ l hpre]
    rfl
  · intro pre post l pat e hps hsearch
    subst hps
    unfold extract_labels
    rw [List.foldl_append, List.foldl_cons, List.foldl_append]
    have hstep : extractStep search ((r.resourceKey.getD {}).name.getD "")
        (pre.foldl (extractStep search ((r.resourceKey.getD {}).name.getD "")) []) (l, pat)
        = pre.foldl (extractStep search ((r.resourceKey.getD {}).name.getD "")) [] := by
      unfold extractStep
      simp only [hsearch]
    rw [hstep]

/-- Witness for C8, with an oracle regex engine realizing the spec's own
example: pattern matching `vm-42` with one capture group binds the label
to `42`; the same configuration on name `host-1` yields no label. -/
theorem C8_witness :
    alookup (extract_labels
      (fun pat nm => if pat = "^vm-(\\d+)$" ∧ nm = "vm-42"
        then Except.ok (some ["42"]) else Except.ok none)
      [("vmid", "^vm-(\\d+)$")]
      { resourceKey := some { name := some "vm-42", resourceKindKey := none, adapterKindKey := none }, identifier := none }) "vmid" = some "42" ∧
    alookup (extract_labels
      (fun pat nm => if pat = "^vm-(\\d+)$" ∧ nm = "vm-42"
        then Except.ok (some ["42"]) else Except.ok none)
      [("vmid", "^vm-(\\d+)$")]
      { resourceKey := some { name := some "host-1", resourceKindKey := none, adapterKindKey := none }, identifier := none }) "vmid" = none :=
  ⟨(C8_label_extraction _ _ _ (by simp)).1 "vmid" "^vm-(\\d+)$" "42" []
      (by simp) (by rfl),
   (C8_label_extraction _ _ _ (by simp)).2.1 "vmid" "^vm-(\\d+)$"
      (by simp) (Or.inl (by rfl))⟩

/-! ## Pagination lemmas (C1, C3) -/

theorem make_api_request_get_ok {α : Type} (endpoint : String) (b : α) (m : Metrics) :
    make_api_request endpoint "GET" (ReqOutcome.resp 200 (some b)) m
      = (some b, m.recordApi endpoint "GET" 200) := rfl

theorem make_api_request_get_exc {α : Type} (endpoint e : String) (m : Metrics) :
    make_api_request (α := α) endpoint "GET" (ReqOutcome.exc e) m
      = (none, m.incErr (endpointErrorLabel endpoint) e) := rfl

theorem ceilDiv_le_iff (T S n : Nat) (hS : 0 < S) :
    (T + S - 1) / S ≤ n ↔ T ≤ n * S := by
  constructor
  · intro h
    by_contra hlt
    push_neg at hlt
    have h1 : n + 1 ≤ (T + S - 1) / S := by
      rw [Nat.le_div_iff_mul_le hS]
      have h2 : (n + 1) * S = n * S + S := Nat.succ_mul n S
      omega
    omega
  · intro h
    have h1 : (T + S - 1) / S < n + 1 := by
      rw [Nat.div_lt_iff_lt_mul hS]
      have h2 : (n + 1) * S = n * S + S := Nat.succ_mul n S
      omega
    omega

theorem lt_ceilDiv_iff (T S n : Nat) (hS : 0 < S) :
    n < (T + S - 1) / S ↔ n * S < T := by
  constructor
  · intro h
    by_contra hc
    push_neg at hc
    exact absurd ((ceilDiv_le_iff T S n hS).mpr hc) (Nat.not_le.mpr h)
  · intro h
    by_contra hc
    push_neg at hc
    exact absurd ((ceilDiv_le_iff T S n hS).mp hc) (Nat.not_le.mpr h)

theorem getResourcesLoop_honest {α : Type} (pages : Nat → List α) (T S : Nat)
    (server : Nat → ReqOutcome (PageData α)) (hS : 0 < S)
    (hserver : ∀ p, server p = ReqOutcome.resp 200 (some { resourceList := some (pages p), pageInfo := some { totalCount := some T, page := some p, pageSize := some S } })) :
    ∀ (fuel k reqs : Nat) (acc : List α) (m : Metrics),
      k * S < T → (T + S - 1) / S - k ≤ fuel →
      ∃ m', getResourcesLoop server fuel k reqs acc m =
        some (acc ++ ((List.range' k ((T + S - 1) / S - k)).map pages).flatten,
              reqs + ((T + S - 1) / S - k), m') := by
  intro fuel
  induction fuel with
  | zero =>
      intro k reqs acc m hk hfuel
      exfalso
      have h1 : k < (T + S - 1) / S := (lt_ceilDiv_iff T S k hS).mpr hk
      omega
  | succ fuel ih =>
      intro k reqs acc m hk hfuel
      have hkc : k < (T + S - 1) / S := (lt_ceilDiv_iff T S k hS).mpr hk
      simp only [getResourcesLoop, hserver k, make_api_request_get_ok, Option.getD_some]
      by_cases hdone : T ≤ (k + 1) * S
      · rw [if_pos hdone]
        have hle : (T + S - 1) / S ≤ k + 1 := (ceilDiv_le_iff T S (k + 1) hS).mpr hdone
        have hceil : (T + S - 1) / S - k = 1 := by omega
        rw [hceil]
        refine ⟨m.recordApi "/api/resources" "GET" 200, ?_⟩
        simp
      · rw [if_neg hdone]
        push_neg at hdone
        have hfuel' : (T + S - 1) / S - (k + 1) ≤ fuel := by omega
        obtain ⟨m', hm'⟩ := ih (k + 1) (reqs + 1) (acc ++ pages k)
          (m.recordApi "/api/resources" "GET" 200) hdone hfuel'
        refine ⟨m', ?_⟩
        rw [hm']
        have hsplit : (T + S - 1) / S - k = ((T + S - 1) / S - (k + 1)) + 1 := by omega
        rw [hsplit, List.range'_succ]
        simp [List.append_assoc]
        omega

/-- C1: under an honest upstream envelope (each page reply reports the
requested page number and constant `totalCount = T > 0`,
`pageSize = S > 0`), the pagination loop of `get_resources` terminates
after exactly `⌈T / S⌉` page requests (stopping when
`(current_page + 1) * page_size >= total_count`) and returns the
concatenation of the pages' `resourceList` items, in order, with no
duplicates or omissions. -/
theorem C1_pagination :
    ∀ {α : Type} (pages : Nat → List α) (T S fuel : Nat)
      (server : Nat → ReqOutcome (PageData α)),
      0 < S → 0 < T →
      (∀ p, server p = ReqOutcome.resp 200 (some { resourceList := some (pages p), pageInfo := some { totalCount := some T, page := some p, pageSize := some S } })) →
      (T + S - 1) / S ≤ fuel →
      ∃ m', get_resources server fuel Metrics.zero =
        some (((List.range ((T + S - 1) / S)).map pages).flatten, (T + S - 1) / S, m') := by
  intro α pages T S fuel server hS hT hserver hfuel
  have h0 : 0 * S < T := by simpa using hT
  have hf : (T + S - 1) / S - 0 ≤ fuel := by simpa using hfuel
  obtain ⟨m', hm'⟩ := getResourcesLoop_honest pages T S server hS hserver fuel 0 0 [] Metrics.zero h0 hf
  refine ⟨m', ?_⟩
  unfold get_resources
  rw [hm']
  simp [List.range_eq_range']

/-- Witness for C1: `T = 3`, `S = 2` — exactly `⌈3/2⌉ = 2` requests,
returning pages 0 and 1 concatenated. -/
theorem C1_witness :
    ∃ m', get_resources C1server 2 Metrics.zero =
      some (((List.range ((3 + 2 - 1) / 2)).map (fun p => [p])).flatten, (3 + 2 - 1) / 2, m') :=
  C1_pagination (fun p => [p]) 3 2 2 C1server (by decide) (by decide) (fun p => rfl) (by decide)

theorem getResourcesLoop_partial {α : Type} (pages : Nat → List α) (T S k : Nat)
    (server : Nat → ReqOutcome (PageData α)) (e : String)
    (hserver : ∀ p, p < k → server p = ReqOutcome.resp 200 (some { resourceList := some (pages p), pageInfo := some { totalCount := some T, page := some p, pageSize := some S } }))
    (hfail : server k = ReqOutcome.exc e)
    (hkS : k * S < T) :
    ∀ (fuel j reqs : Nat) (acc : List α) (m : Metrics),
      j ≤ k → k - j + 1 ≤ fuel →
      ∃ m', getResourcesLoop server fuel j reqs acc m =
        some (acc ++ ((List.range' j (k - j)).map pages).flatten, reqs + (k - j) + 1, m') := by
  intro fuel
  induction fuel with
  | zero => intro j reqs acc m hj hfuel; omega
  | succ fuel ih =>
      intro j reqs acc m hj hfuel
      by_cases hjk : j = k
      · subst hjk
        simp only [getResourcesLoop, hfail, make_api_request_get_exc]
        refine ⟨m.incErr (endpointErrorLabel "/api/resources") e, ?_⟩
        simp
      · have hjlt : j < k := by omega
        simp only [getResourcesLoop, hserver j hjlt, make_api_request_get_ok, Option.getD_some]
        have hnotdone : ¬ T ≤ (j + 1) * S := by
          push_neg
          calc (j + 1) * S ≤ k * S := Nat.mul_le_mul_right S (by omega)
            _ < T := hkS
        rw [if_neg hnotdone]
        obtain ⟨m', hm'⟩ := ih (j + 1) (reqs + 1) (acc ++ pages j)
          (m.recordApi "/api/resources" "GET" 200) (by omega) (by omega)
        refine ⟨m', ?_⟩
        rw [hm']
        have hsplit : k - j = (k - (j + 1)) + 1 := by omega
        rw [hsplit, List.range'_succ]
        simp [List.append_assoc]
        omega

theorem pyUpper_GET : pyUpper "GET" = "GET" := rfl

theorem make_api_request_get_http_error {α : Type} (endpoint : String) (status : Nat)
    (body : Option α) (m : Metrics) (h : 400 ≤ status ∧ status < 600) :
    make_api_request endpoint "GET" (ReqOutcome.resp status body) m
      = (none, (m.recordApi endpoint "GET" status).incErr (endpointErrorLabel endpoint) "HTTPError") := by
  have hc : ¬ (pyUpper "GET" ≠ "GET" ∧ pyUpper "GET" ≠ "POST") := by decide
  simp [make_api_request, hc, h, pyUpper_GET]

theorem make_api_request_get_parse_error {α : Type} (endpoint : String) (status : Nat)
    (m : Metrics) (h : ¬ (400 ≤ status ∧ status < 600)) :
    make_api_request endpoint "GET" (ReqOutcome.resp status (none : Option α)) m
      = (none, (m.recordApi endpoint "GET" status).incErr (endpointErrorLabel endpoint) "JSONDecodeError") := by
  have hc : ¬ (pyUpper "GET" ≠ "GET" ∧ pyUpper "GET" ≠ "POST") := by decide
  simp [make_api_request, hc, h, pyUpper_GET]

/-- C3: every terminal failure of the request primitive is recovered,
never propagated.  `make_api_request` returns `None` after bumping the
collection-error counter labelled with the endpoint-derived label and
the failure category (exception class name) — for network errors,
HTTP 4xx/5xx (the statuses `raise_for_status` raises for), and JSON
parse failures alike; `get_alerts` and
`get_resource_stats` then return the empty list, and `get_resources`
returns exactly the pages accumulated before the failing page.  All
collectors are total functions, so no exception reaches the cycle. -/
theorem C3_terminal_failures_recovered :
    (∀ (α : Type) (endpoint e : String) (m : Metrics),
       (make_api_request (α := α) endpoint "GET" (ReqOutcome.exc e) m).1 = none ∧
       (make_api_request (α := α) endpoint "GET" (ReqOutcome.exc e) m).2.collectionErrorsTotal
           (endpointErrorLabel endpoint, e)
         = m.collectionErrorsTotal (endpointErrorLabel endpoint, e) + 1) ∧
    (∀ (α : Type) (endpoint : String) (status : Nat) (body : Option α) (m : Metrics),
       400 ≤ status → status < 600 →
       (make_api_request endpoint "GET" (ReqOutcome.resp status body) m).1 = none ∧
       (make_api_request endpoint "GET" (ReqOutcome.resp status body) m).2.collectionErrorsTotal
           (endpointErrorLabel endpoint, "HTTPError")
         = m.collectionErrorsTotal (endpointErrorLabel endpoint, "HTTPError") + 1) ∧
    (∀ (α : Type) (endpoint : String) (status : Nat) (m : Metrics),
       ¬ (400 ≤ status ∧ status < 600) →
       (make_api_request endpoint "GET" (ReqOutcome.resp status (none : Option α)) m).1 = none ∧
       (make_api_request endpoint "GET" (ReqOutcome.resp status (none : Option α)) m).2.collectionErrorsTotal
           (endpointErrorLabel endpoint, "JSONDecodeError")
         = m.collectionErrorsTotal (endpointErrorLabel endpoint, "JSONDecodeError") + 1) ∧
    (∀ (outcome : ReqOutcome AlertsBody) (m : Metrics),
       (make_api_request "/api/alerts" "GET" outcome m).1 = none →
       (get_alerts outcome m).1 = []) ∧
    (∀ (rid : String) (outcome : ReqOutcome StatsBody) (m : Metrics),
       (make_api_request ("/api/resources/" ++ rid ++ "/stats") "GET" outcome m).1 = none →
       (get_resource_stats rid outcome m).1 = []) ∧
    (∀ (α : Type) (pages : Nat → List α) (T S k fuel : Nat)
       (server : Nat → ReqOutcome (PageData α)) (e : String) (m : Metrics),
       (∀ p, p < k → server p = ReqOutcome.resp 200 (some { resourceList := some (pages p), pageInfo := some { totalCount := some T, page := some p, pageSize := some S } })) →
       server k = ReqOutcome.exc e →
       k * S < T → k + 1 ≤ fuel →
       ∃ m', get_resources server fuel m =
         some (((List.range k).map pages).flatten, k + 1, m')) := by
  refine ⟨?_, ?_, ?_, ?_, ?_, ?_⟩
  · intro α endpoint e m
    rw [make_api_request_get_exc]
    exact ⟨rfl, by simp [Metrics.incErr, Metrics.recordApi, incAt]⟩
  · intro α endpoint status body m h1 h2
    rw [make_api_request_get_http_error endpoint status body m ⟨h1, h2⟩]
    exact ⟨rfl, by simp [Metrics.incErr, Metrics.recordApi, incAt]⟩
  · intro α endpoint status m h
    rw [make_api_request_get_parse_error endpoint status m h]
    exact ⟨rfl, by simp [Metrics.incErr, Metrics.recordApi, incAt]⟩
  · intro outcome m hnone
    rcases hreq : make_api_request "/api/alerts" "GET" outcome m with ⟨res, m2⟩
    rw [hreq] at hnone
    simp only at hnone
    subst hnone
    simp [get_alerts, hreq]
  · intro rid outcome m hnone
    rcases hreq : make_api_request ("/api/resources/" ++ rid ++ "/stats") "GET" outcome m with ⟨res, m2⟩
    rw [hreq] at hnone
    simp only at hnone
    subst hnone
    simp [get_resource_stats, hreq]
  · intro α pages T S k fuel server e m hserver hfail hkS hfuel
    obtain ⟨m', hm'⟩ := getResourcesLoop_partial pages T S k server e hserver hfail hkS
      fuel 0 0 [] m (by omega) (by omega)
    refine ⟨m', ?_⟩
    unfold get_resources
    rw [hm']
    simp [List.range_eq_range']

/-- Witness for C3: a connection error yields no data but an error-count
bump; failing collectors return `[]`; a resource fetch whose third page
request dies returns the first two pages. -/
theorem C3_witness :
    (make_api_request (α := AlertsBody) "/api/alerts" "GET" (ReqOutcome.exc "ConnectionError") Metrics.zero).1 = none ∧
    (get_alerts (ReqOutcome.exc "ConnectionError") Metrics.zero).1 = [] ∧
    (get_resource_stats "res-1" (ReqOutcome.exc "Timeout") Metrics.zero).1 = [] ∧
    (∃ m', get_resources C3server 3 Metrics.zero = some (((List.range 2).map (fun p => [p])).flatten, 2 + 1, m')) :=
  ⟨(C3_terminal_failures_recovered.1 AlertsBody "/api/alerts" "ConnectionError" Metrics.zero).1,
   C3_terminal_failures_recovered.2.2.2.1 _ Metrics.zero rfl,
   C3_terminal_failures_recovered.2.2.2.2.1 "res-1" _ Metrics.zero rfl,
   C3_terminal_failures_recovered.2.2.2.2.2 Nat (fun p => [p]) 10 1 2 3 C3server "ConnectionError"
     Metrics.zero (fun p hp => by simp [C3server, hp]) (by simp [C3server]) (by decide) (by decide)⟩

end AriaExporter
